import Mathlib

/-!
Verification of the med-parser self-correcting extraction pipeline.

Shallow embedding of:
- `MedicalCodeVectorDB.search_icd10` / `search_rxnorm` (mlx_advanced_pipeline.py)
- `MedGemmaPipeline.extract_json_from_response`, `process_transcript`
  (mlx_medgemma_pipeline.py)
- `AdvancedMedGemmaPipeline.self_correct_with_retry`, `fallback_to_vector_db`,
  `process_transcript_with_fallback` (mlx_advanced_pipeline.py)
- `process_medical_text`, `get_pipeline`, `health_check` (med_app/mlx_views.py)

External collaborators (the MLX generator, Python `json.loads`, the FHIR
validation library) are modelled as oracle parameters, matching the spec's
"opaque collaborator" treatment.  Floating point scores are modelled as
rationals: all scores arising here are ratios of small integers, whose
IEEE-double comparisons against the 0.7 threshold agree with the exact
rational comparisons.
-/

namespace MedParser

/-! ## Python string primitives -/

/-- Python whitespace characters recognised by `str.split()` / `str.strip()`. -/
def isPySpace (c : Char) : Bool :=
  c = ' ' || c = '\t' || c = '\n' || c = '\r' || c = '\x0b' || c = '\x0c'

/-- Python `str.lower()` (ASCII-sufficient for the strings in this repo). -/
def pyLower (s : String) : String :=
  String.mk (s.toList.map Char.toLower)

/-- Python `str.split()` with no argument: split on whitespace runs,
discarding empty pieces. -/
def pySplit (s : String) : List String :=
  ((s.toList.splitOnP isPySpace).map String.mk).filter (fun w => w ≠ "")

/-- Python `str.strip()` on a character list: drop leading and trailing
whitespace. -/
def pyStripList (l : List Char) : List Char :=
  ((l.dropWhile isPySpace).reverse.dropWhile isPySpace).reverse

/-- Python `str.strip()`. -/
def pyStrip (s : String) : String :=
  String.mk (pyStripList s.toList)

/-- Python substring containment `needle in haystack` on character lists. -/
def listContains (needle : List Char) : List Char → Bool
  | [] => needle.isPrefixOf []
  | c :: rest => needle.isPrefixOf (c :: rest) || listContains needle rest

/-- Python `needle in haystack` for strings. -/
def pyIn (needle haystack : String) : Bool :=
  listContains needle.toList haystack.toList

/-! ## Code Reference Store (`MedicalCodeVectorDB`) -/

/-- The ICD-10 sample table of `_load_icd10_codes`, in insertion order. -/
def icd10_codes : List (String × String) :=
  [ ("I10", "Essential (primary) hypertension"),
    ("I11.0", "Hypertensive heart disease with heart failure"),
    ("E11.9", "Type 2 diabetes mellitus without complications"),
    ("E11.65", "Type 2 diabetes mellitus with hyperglycemia"),
    ("I25.10", "Atherosclerotic heart disease of native coronary artery without angina pectoris"),
    ("I25.119", "Atherosclerotic heart disease of native coronary artery with unspecified angina pectoris"),
    ("E78.5", "Hyperlipidemia, unspecified"),
    ("E78.0", "Pure hypercholesterolemia"),
    ("I63.9", "Cerebral infarction, unspecified"),
    ("N18.3", "Chronic kidney disease, stage 3"),
    ("J44.1", "Chronic obstructive pulmonary disease with acute exacerbation"),
    ("J44.0", "Chronic obstructive pulmonary disease with acute lower respiratory infection") ]

/-- The RxNorm sample table of `_load_rxnorm_codes`, in insertion order. -/
def rxnorm_codes : List (String × String) :=
  [ ("314076", "Lisinopril 10 MG Oral Tablet"),
    ("314077", "Lisinopril 20 MG Oral Tablet"),
    ("861007", "Metformin hydrochloride 1000 MG Oral Tablet"),
    ("860975", "Metformin hydrochloride 500 MG Oral Tablet"),
    ("617310", "Atorvastatin 40 MG Oral Tablet"),
    ("617311", "Atorvastatin 80 MG Oral Tablet"),
    ("308136", "Amlodipine 5 MG Oral Tablet"),
    ("197361", "Aspirin 81 MG Oral Tablet"),
    ("855332", "Metoprolol succinate 50 MG Extended Release Oral Tablet"),
    ("351761", "Warfarin Sodium 5 MG Oral Tablet") ]

/-- Word-overlap score of `search_icd10`'s loop body: `none` models the
`continue` on an empty token set, otherwise
`|words(term) ∩ words(desc)| / |words(term)|`. -/
def scoreIcd10 (termLower : String) (description : String) : Option ℚ :=
  let descLower := pyLower description
  let termWords := (pySplit termLower).dedup
  let descWords := (pySplit descLower).dedup
  if termWords = [] then none
  else
    let overlap := (termWords.filter (fun w => w ∈ descWords)).length
    some (mkRat overlap termWords.length)

/-- Word-overlap score of `search_rxnorm`'s loop body: score `1.0` when the
lowercased term occurs as a substring of the lowercased description, else the
token-overlap ratio (`none` models the `continue` on an empty token set). -/
def scoreRxnorm (termLower : String) (description : String) : Option ℚ :=
  let descLower := pyLower description
  if pyIn termLower descLower then some 1
  else
    let termWords := (pySplit termLower).dedup
    let descWords := (pySplit descLower).dedup
    if termWords = [] then none
    else
      let overlap := (termWords.filter (fun w => w ∈ descWords)).length
      some (mkRat overlap termWords.length)

/-- One iteration of the `best_match`/`best_score` accumulator loop shared by
`search_icd10` and `search_rxnorm`. -/
def searchStep (score : String → Option ℚ) (threshold : ℚ)
    (acc : Option String × ℚ) (pair : String × String) : Option String × ℚ :=
  match score pair.2 with
  | none => acc
  | some s => if s > acc.2 ∧ s ≥ threshold then (some pair.1, s) else acc

/-- The accumulator loop over the code table, starting from
`best_match = None, best_score = 0.0`. -/
def searchLoop (score : String → Option ℚ) (threshold : ℚ)
    (pairs : List (String × String)) : Option String × ℚ :=
  pairs.foldl (searchStep score threshold) (none, 0)

/-- `MedicalCodeVectorDB.search_icd10`. -/
def search_icd10 (term : String) (threshold : ℚ) : Option String :=
  (searchLoop (scoreIcd10 (pyLower term)) threshold icd10_codes).1

/-- `MedicalCodeVectorDB.search_rxnorm`. -/
def search_rxnorm (term : String) (threshold : ℚ) : Option String :=
  (searchLoop (scoreRxnorm (pyLower term)) threshold rxnorm_codes).1

/-! ## Structured-Output Parser (`extract_json_from_response`)

`json.loads` is Python's standard-library JSON decoder, an external
collaborator; it is modelled as an oracle `loads : String → Option Json`.
The regular-expression scan over the raw response is embedded faithfully. -/

/-- JSON values, as produced by `json.loads`. -/
inductive Json where
  | null : Json
  | bool (b : Bool) : Json
  | num (q : ℚ) : Json
  | str (s : String) : Json
  | arr (xs : List Json) : Json
  | obj (fields : List (String × Json)) : Json

/-- The opening-brace character (ASCII 123). -/
def braceOpen : Char := Char.ofNat 123

/-- The closing-brace character (ASCII 125). -/
def braceClose : Char := Char.ofNat 125

/-- First index at which `needle` occurs as a contiguous block of `l`
(`None` when it never occurs). -/
def firstOccur (needle : List Char) : List Char → Option Nat
  | [] => if needle.isPrefixOf ([] : List Char) then some 0 else none
  | c :: rest =>
    if needle.isPrefixOf (c :: rest) then some 0
    else (firstOccur needle rest).map (· + 1)

/-- Last index at which the character `c` occurs in `l`. -/
def lastIdxOf (c : Char) : List Char → Option Nat
  | [] => none
  | a :: rest =>
    match lastIdxOf c rest with
    | some j => some (j + 1)
    | none => if a = c then some 0 else none

/-- The span captured by `re.search` with a lazy fenced pattern such as
`` ```json\n(.*?)\n``` `` under `re.DOTALL`: content between the first
occurrence of the opening tag and the next occurrence of the closing tag
after it. -/
def fencedSpan (openTag closeTag s : List Char) : Option (List Char) :=
  match firstOccur openTag s with
  | none => none
  | some i =>
    let tail := s.drop (i + openTag.length)
    match firstOccur closeTag tail with
    | none => none
    | some j => some (tail.take j)

/-- The span matched by the greedy pattern `\{.*\}` under `re.DOTALL`:
from the first opening brace through the last closing brace. -/
def braceSpan (s : List Char) : Option (List Char) :=
  match firstOccur [braceOpen] s, lastIdxOf braceClose s with
  | some i, some j => if i < j then some ((s.drop i).take (j - i + 1)) else none
  | _, _ => none

/-- The candidate text of each of the four parse attempts of
`extract_json_from_response`, in the order the code tries them:
labeled fence, unlabeled fence, brace span, whole response. -/
def parseCandidates (response : String) : List (Option String) :=
  let s := response.toList
  [ (fencedSpan ("```json\n".toList) ("\n```".toList) s).map String.mk,
    (fencedSpan ("```\n".toList) ("\n```".toList) s).map String.mk,
    (braceSpan s).map String.mk,
    some response ]

/-- `MedGemmaPipeline.extract_json_from_response`: loop over the three regex
patterns (a failed `json.loads` is caught and the loop continues), then a
direct parse of the whole response. -/
def extract_json_from_response (loads : String → Option Json)
    (response : String) : Option Json :=
  let s := response.toList
  let attempt1 := (fencedSpan ("```json\n".toList) ("\n```".toList) s).bind
    (fun c => loads (String.mk c))
  let attempt2 := (fencedSpan ("```\n".toList) ("\n```".toList) s).bind
    (fun c => loads (String.mk c))
  let attempt3 := (braceSpan s).bind (fun c => loads (String.mk c))
  match attempt1 with
  | some j => some j
  | none =>
    match attempt2 with
    | some j => some j
    | none =>
      match attempt3 with
      | some j => some j
      | none => loads response

/-- Spec-side: first candidate that parses, in order (used to state the
amended C5). -/
def firstParsed (loads : String → Option Json) : List (Option String) → Option Json
  | [] => none
  | c :: rest =>
    match c.bind loads with
    | some j => some j
    | none => firstParsed loads rest

/-- Spec-side: the schema check the spec claims the parser performs — an
object carrying `medications` and `conditions` keys bound to sequences. -/
def conformsSchema : Json → Bool
  | .obj fields =>
    (match fields.lookup "medications" with
     | some (.arr _) => true
     | _ => false) &&
    (match fields.lookup "conditions" with
     | some (.arr _) => true
     | _ => false)
  | _ => false

/-! ## Data model of the orchestrator

Entity dictionaries parsed from model output.  A missing dictionary key is
`none`; `name` is kept required because every code path reads it
(`med["name"]` in the correction and fallback stages). -/

/-- A medication entry of the extraction. -/
structure MedEntity where
  name : String
  rxnorm_code : Option String
  dosage : Option String
  frequency : Option String
  source : Option String
deriving DecidableEq, Repr

/-- A condition entry of the extraction. -/
structure CondEntity where
  name : String
  icd10_code : Option String
  clinical_status : Option String
  source : Option String
deriving DecidableEq, Repr

/-- The `extracted_data` dictionary: `data.get("medications", [])` and
`data.get("conditions", [])`. -/
structure ExtractedData where
  medications : List MedEntity
  conditions : List CondEntity
deriving DecidableEq, Repr

/-- One per-entity validation dictionary; `source` is only attached by the
final-validation stage, hence optional. -/
structure VRecord where
  name : String
  valid : Bool
  error : Option String
  source : Option String
deriving DecidableEq, Repr

/-- The `validation_results` dictionary. -/
structure ValidationResults where
  medications : List VRecord
  conditions : List VRecord
deriving DecidableEq, Repr

/-- The pipeline result dictionary (`timestamp` omitted: no claim concerns
it).  `correction_stages := none` models the key being absent. -/
structure PipelineResult where
  input_length : Nat
  success : Bool
  extracted_data : Option ExtractedData
  validation_results : Option ValidationResults
  errors : List String
  correction_stages : Option (List String)
deriving DecidableEq, Repr

/-- The opaque FHIR validation collaborator:
`validate_fhir_medication` / `validate_fhir_condition` as black-box
pass/fail functions returning `(is_valid, error)`. -/
structure FhirValidator where
  med : MedEntity → Bool × Option String
  cond : CondEntity → Bool × Option String

/-- Outcome of one generate-then-parse round against the opaque generator:
`generate_response` raised, or `extract_json_from_response` produced no
(truthy) dictionary, or it produced `d`.  (A falsy `{}` parse behaves as
`parseFail` at both call sites: `if not extracted_data` and
`if retry_data`.) -/
inductive GenResult where
  | throws (msg : String)
  | parseFail
  | parsed (d : ExtractedData)

/-- Oracle for one pipeline run: outcome of the initial generation round,
outcome of the (at most one) correction round, and the validator. -/
structure RunOracle where
  initial : GenResult
  retry : GenResult
  validator : FhirValidator

/-- Generation/validation external-call counters for one run. -/
structure CallCounts where
  gen : Nat
  val : Nat
deriving DecidableEq, Repr

/-- Validation loop over medications (initial and re-validation stages:
records carry no `source` key). -/
def validateMeds (v : FhirValidator) (meds : List MedEntity) : List VRecord :=
  meds.map (fun m => ⟨m.name, (v.med m).1, (v.med m).2, none⟩)

/-- Validation loop over conditions (no `source` key). -/
def validateConds (v : FhirValidator) (conds : List CondEntity) : List VRecord :=
  conds.map (fun c => ⟨c.name, (v.cond c).1, (v.cond c).2, none⟩)

/-- Final-validation loop over medications: records carry
`source = med.get("source", "model")`. -/
def finalValidateMeds (v : FhirValidator) (meds : List MedEntity) : List VRecord :=
  meds.map (fun m => ⟨m.name, (v.med m).1, (v.med m).2, some (m.source.getD "model")⟩)

/-- Final-validation loop over conditions. -/
def finalValidateConds (v : FhirValidator) (conds : List CondEntity) : List VRecord :=
  conds.map (fun c => ⟨c.name, (v.cond c).1, (v.cond c).2, some (c.source.getD "model")⟩)

/-- Number of records with `valid == False`. -/
def countInvalid (rs : List VRecord) : Nat :=
  (rs.filter (fun r => !r.valid)).length

/-- Total invalid count over both categories. -/
def totalInvalid (v : ValidationResults) : Nat :=
  countInvalid v.medications + countInvalid v.conditions

/-- The per-entity validation pass over a snapshot (initial and
re-validation stages). -/
def runValidation (V : FhirValidator) (d : ExtractedData) : ValidationResults :=
  ⟨validateMeds V d.medications, validateConds V d.conditions⟩

/-- The final validation pass over a snapshot (records tagged with
`source`). -/
def runFinalValidation (V : FhirValidator) (d : ExtractedData) : ValidationResults :=
  ⟨finalValidateMeds V d.medications, finalValidateConds V d.conditions⟩

/-- Number of extracted entities (medications plus conditions) of a
snapshot. -/
def entityCount (d : ExtractedData) : Nat :=
  d.medications.length + d.conditions.length

/-- Entity count of the data carried by a generation outcome. -/
def genEntityCount : GenResult → Nat
  | .parsed d => entityCount d
  | _ => 0

/-- `MedGemmaPipeline.process_transcript`, paired with its external-call
counts: one generation round; when it succeeds and validation is requested,
one validation call per extracted entity. -/
def process_transcript (O : RunOracle) (validate : Bool) (inputLen : Nat) :
    PipelineResult × CallCounts :=
  match O.initial with
  | .throws msg =>
    (⟨inputLen, false, none, none, ["Inference failed: " ++ msg], none⟩, ⟨1, 0⟩)
  | .parseFail =>
    (⟨inputLen, false, none, none, ["Failed to extract valid JSON from response"], none⟩, ⟨1, 0⟩)
  | .parsed d =>
    if validate then
      (⟨inputLen, true, some d, some (runValidation O.validator d), [], none⟩,
       ⟨1, entityCount d⟩)
    else
      (⟨inputLen, true, some d, none, [], none⟩, ⟨1, 0⟩)

/-- `AdvancedMedGemmaPipeline.self_correct_with_retry`, paired with its
generation-call count.  Returns the parsed correction wholesale when the
correction round parses; returns `initial_result` when nothing failed, or
when the round throws or fails to parse. -/
def self_correct_with_retry (retry : GenResult) (initial_result : ExtractedData)
    (validation_results : ValidationResults) : ExtractedData × Nat :=
  let failed_medications := validation_results.medications.filter (fun r => !r.valid)
  let failed_conditions := validation_results.conditions.filter (fun r => !r.valid)
  if failed_medications = [] ∧ failed_conditions = [] then (initial_result, 0)
  else
    match retry with
    | .parsed d => (d, 1)
    | _ => (initial_result, 1)

/-- `AdvancedMedGemmaPipeline.fallback_to_vector_db`, value level: the
snapshot the fallback stage produces.  Entry `i` is rewritten only when
`validation_results[i]` is invalid and the store lookup hits (code
overwritten, `source` set to `"vector_db_fallback"`). -/
def fallback_to_vector_db (d : ExtractedData) (v : ValidationResults) : ExtractedData :=
  ⟨ (d.medications.zip v.medications).map (fun p =>
      if p.2.valid then p.1
      else
        match search_rxnorm p.1.name (mkRat 7 10) with
        | some code => { p.1 with rxnorm_code := some code, source := some "vector_db_fallback" }
        | none => p.1),
    (d.conditions.zip v.conditions).map (fun p =>
      if p.2.valid then p.1
      else
        match search_icd10 p.1.name (mkRat 7 10) with
        | some code => { p.1 with icd10_code := some code, source := some "vector_db_fallback" }
        | none => p.1) ⟩

/-- `AdvancedMedGemmaPipeline.process_transcript_with_fallback`, paired with
its external-call counts. -/
def process_transcript_with_fallback (O : RunOracle) (validate : Bool)
    (inputLen : Nat) : PipelineResult × CallCounts :=
  let rc := process_transcript O validate inputLen
  let result := rc.1
  if ¬result.success ∨ ¬validate then rc
  else
    match result.extracted_data, result.validation_results with
    | some d, some v =>
      if totalInvalid v = 0 then rc
      else
        let cg := self_correct_with_retry O.retry d v
        let corrected_data := cg.1
        let reval := runValidation O.validator corrected_data
        let c2 : CallCounts := ⟨rc.2.gen + cg.2, rc.2.val + entityCount corrected_data⟩
        if totalInvalid reval > 0 then
          let final_data := fallback_to_vector_db corrected_data reval
          let final_validation := runFinalValidation O.validator final_data
          ({ result with
              extracted_data := some final_data,
              validation_results := some final_validation,
              correction_stages := some ["initial", "self_correct", "vector_db"] },
           ⟨c2.gen, c2.val + entityCount final_data⟩)
        else
          ({ result with
              extracted_data := some corrected_data,
              validation_results := some reval,
              correction_stages := some ["initial", "self_correct"] },
           c2)
    | _, _ => rc

/-! ## Reference-level model of the fallback stage

`fallback_to_vector_db` begins with `corrected_data = extracted_data.copy()`,
a shallow `dict.copy()`: the medication list and its entry dictionaries are
shared between the prior snapshot and the new one, and `med["rxnorm_code"] =
...` updates those shared entries in place.  To express this, entity
dictionaries live in a heap addressed by index and a snapshot is a list of
references. -/

/-- The in-place update loop of `fallback_to_vector_db` over the medication
entries: `heap` holds the entry dictionaries, `idxs` the references of the
(shared) medication list, `v` the matching validation records.  Returns the
heap after the loop. -/
def fallbackMedsHeap (heap : List MedEntity) (idxs : List Nat)
    (v : List VRecord) : List MedEntity :=
  (idxs.zip v).foldl (fun h p =>
    if p.2.valid then h
    else
      match h.get? p.1 with
      | none => h
      | some m =>
        match search_rxnorm m.name (mkRat 7 10) with
        | some code =>
          h.set p.1 { m with rxnorm_code := some code, source := some "vector_db_fallback" }
        | none => h) heap

/-- What a snapshot's references dereference to in a given heap. -/
def viewSnapshot (heap : List MedEntity) (idxs : List Nat) : List (Option MedEntity) :=
  idxs.map heap.get?

/-! ## HTTP view layer (`med_app/mlx_views.py`) -/

/-- Request body of `POST /api/process-medical-text/`:
`body.get("transcript", "")`, `body.get("validate_fhir", True)`,
`body.get("use_fallback", True)`. -/
structure ApiRequest where
  transcript : Option String
  validate_fhir : Bool
  use_fallback : Bool

/-- Response behaviour of `process_medical_text` (network framing elided):
400, 503, or the 200 payload fields the claims mention. -/
inductive ViewResponse where
  | badRequest (msg : String)
  | unavailable
  | ok (success : Bool) (data : Option ExtractedData)
      (validation : Option ValidationResults)
      (correction_stages : List String) (errors : List String)
deriving DecidableEq

/-- `process_medical_text`: strip the transcript, reject empty or over-long
input with 400, reject a missing pipeline with 503, then run the pipeline
and build the response (`metadata.correction_stages` defaults to
`["initial"]` when the pipeline result lacks the key).  The second component
records whether the pipeline was invoked. -/
def process_medical_text (O : RunOracle) (pipelineAvailable : Bool)
    (body : ApiRequest) : ViewResponse × Bool :=
  let transcript := pyStrip (body.transcript.getD "")
  if transcript = "" then
    (.badRequest "Missing transcript in request body", false)
  else if transcript.length > 10000 then
    (.badRequest "Transcript too long (max 10,000 characters)", false)
  else if ¬pipelineAvailable then
    (.unavailable, false)
  else
    let result :=
      (if body.use_fallback then
        process_transcript_with_fallback O body.validate_fhir transcript.length
      else
        process_transcript O body.validate_fhir transcript.length).1
    (.ok result.success result.extracted_data result.validation_results
      (result.correction_stages.getD ["initial"])
      (if result.success then [] else result.errors), true)

/-! ## Generator-handle lifecycle (`get_pipeline` / `health_check`) -/

/-- The process-wide pipeline object; `modelLoaded` is whether `load_model`
succeeded (`self.model` is not `None`). -/
structure PipelineHandle where
  modelLoaded : Bool
deriving DecidableEq, Repr

/-- The module-global `_pipeline` variable. -/
structure ServerState where
  pipeline : Option PipelineHandle
deriving DecidableEq, Repr

/-- `get_pipeline`: when the global is unset, construct the pipeline object
(assigning the global), run `load_model` (outcome `loadSucceeds`), and
return `None` when loading failed — the global keeps the constructed object
either way. -/
def get_pipeline (loadSucceeds : Bool) (st : ServerState) :
    Option PipelineHandle × ServerState :=
  match st.pipeline with
  | some p => (some p, st)
  | none =>
    let p : PipelineHandle := ⟨loadSucceeds⟩
    if loadSucceeds then (some p, ⟨some p⟩) else (none, ⟨some p⟩)

/-- Health endpoint outcome. -/
inductive HealthStatus where
  | healthy
  | unhealthy
deriving DecidableEq, Repr

/-- `health_check`: 503 `unhealthy` when `get_pipeline` returns `None`,
otherwise 200 `healthy`. -/
def health_check (loadSucceeds : Bool) (st : ServerState) :
    HealthStatus × ServerState :=
  match get_pipeline loadSucceeds st with
  | (none, st2) => (.unhealthy, st2)
  | (some _, st2) => (.healthy, st2)

/-- Spec-side: the generator has successfully loaded in state `st`
(the readiness condition `GET /health` is specified to report). -/
def generatorLoaded (st : ServerState) : Bool :=
  match st.pipeline with
  | some p => p.modelLoaded
  | none => false

/-! ## Concrete example data used to settle the claims -/

/-- Outcome classifier of a correction round: `true` when generation threw
or its output failed to parse. -/
def retryFailOutcome : GenResult → Bool
  | .parsed _ => false
  | _ => true

/-- C1 example: one condition the store cannot resolve. -/
def C1data : ExtractedData := ⟨[], [⟨"zzz", some "BAD", some "active", none⟩]⟩

/-- C1 example oracle: everything fails validation, the correction round
fails to parse. -/
def C1oracle : RunOracle :=
  ⟨.parsed C1data, .parseFail,
   ⟨fun _ => (false, some "invalid code"), fun _ => (false, some "invalid code")⟩⟩

/-- C2 example: one medication. -/
def C2data : ExtractedData :=
  ⟨[⟨"Aspirin", some "197361", some "81mg", some "daily", none⟩], []⟩

/-- C2 example oracle: validation passes everywhere. -/
def C2oracle : RunOracle :=
  ⟨.parsed C2data, .parseFail, ⟨fun _ => (true, none), fun _ => (true, none)⟩⟩

/-- C3 example: prior snapshot with one passing medication and one failing
condition. -/
def C3prior : ExtractedData :=
  ⟨[⟨"Aspirin", some "197361", none, none, none⟩],
   [⟨"Gout", some "XXX", some "active", none⟩]⟩

/-- C3 example: validation of `C3prior` (medication passed, condition
failed). -/
def C3val : ValidationResults :=
  ⟨[⟨"Aspirin", true, none, none⟩], [⟨"Gout", false, some "bad code", none⟩]⟩

/-- C3 example: what the correction round parses — a wholly different
extraction that no longer contains the passing medication. -/
def C3retry : ExtractedData :=
  ⟨[⟨"Tylenol", some "00000", none, none, none⟩],
   [⟨"Gout", some "M10", some "active", none⟩]⟩

/-- C3 example heap: one shared medication dictionary with a bad code. -/
def C3heap : List MedEntity := [⟨"Lisinopril", some "BAD", none, none, none⟩]

/-- C3 example: the failing validation record for the heap entry. -/
def C3vrec : VRecord := ⟨"Lisinopril", false, some "bad code", none⟩

/-- C3 witness data: a single passing medication. -/
def C3wd : ExtractedData := ⟨[⟨"Aspirin", some "197361", none, none, none⟩], []⟩

/-- C3 witness validation. -/
def C3wv : ValidationResults := ⟨[⟨"Aspirin", true, none, none⟩], []⟩

/-- C4 example: initial extraction with a malformed condition code. -/
def C4data : ExtractedData :=
  ⟨[], [⟨"Essential hypertension", some "I10.99", some "active", none⟩]⟩

/-- C4 example: the corrected extraction the retry round parses. -/
def C4fixed : ExtractedData :=
  ⟨[], [⟨"Essential hypertension", some "I10", some "active", none⟩]⟩

/-- C4 example validator: a condition is valid exactly when its code is
`I10`. -/
def C4validator : FhirValidator :=
  ⟨fun _ => (true, none),
   fun c => if c.icd10_code = some "I10" then (true, none)
            else (false, some "invalid ICD-10")⟩

/-- C4 example oracle. -/
def C4oracle : RunOracle := ⟨.parsed C4data, .parsed C4fixed, C4validator⟩

/-- C5 example raw model response: a JSON object with no `medications` or
`conditions` keys (braces written with escapes). -/
def C5response : String := "\x7b\x22a\x22: 1\x7d"

/-- C5 example: what real `json.loads` returns on that text. -/
def C5json : Json := Json.obj [("a", Json.num 1)]

/-- C5 example `json.loads` oracle, agreeing with Python's decoder on the
only string this run feeds it. -/
def C5loads : String → Option Json :=
  fun s => if s = "\x7b\x22a\x22: 1\x7d" then some (Json.obj [("a", Json.num 1)]) else none

/-- C7 example: one medication the store cannot resolve. -/
def C7data : ExtractedData := ⟨[⟨"zzz", some "BAD", none, none, none⟩], []⟩

/-- C7 example oracle: validation always fails, the correction round
throws. -/
def C7oracle : RunOracle :=
  ⟨.parsed C7data, .throws "boom",
   ⟨fun _ => (false, some "bad"), fun _ => (false, some "bad")⟩⟩

/-- C8 example data. -/
def C8data : ExtractedData :=
  ⟨[⟨"Aspirin", some "197361", none, none, none⟩],
   [⟨"Gout", some "M10.9", some "active", none⟩]⟩

/-- C8 example oracle: all valid. -/
def C8oracle : RunOracle :=
  ⟨.parsed C8data, .parseFail, ⟨fun _ => (true, none), fun _ => (true, none)⟩⟩

/-- C9 example: 10,000 letters followed by one trailing space —
10,001 characters. -/
def C9longList : List Char := List.replicate 10000 'a' ++ [' ']

/-- C9 example transcript of length 10,001. -/
def C9long : String := String.mk C9longList

/-- C9 example: a transcript of exactly 10,000 characters, all
whitespace. -/
def C9spaces : String := String.mk (List.replicate 10000 ' ')

/-- C6 witness term. -/
def C6term : String := "lisinopril"

/-- C9/C2 view oracle (irrelevant to the input checks). -/
def C9oracle : RunOracle :=
  ⟨.parseFail, .parseFail, ⟨fun _ => (true, none), fun _ => (true, none)⟩⟩

/-! ## Spec-side description of the fuzzy lookup (for claim C6)

The spec words: "Returns the highest-scoring code whose score ≥ threshold;
ties resolved by store iteration order (first-seen wins). Returns nothing
found when the term tokenizes to an empty set or no candidate clears the
threshold." -/

/-- The candidates clearing the threshold, in store order, with their
scores. -/
def qualifying (score : String → Option ℚ) (threshold : ℚ)
    (pairs : List (String × String)) : List (String × ℚ) :=
  pairs.filterMap (fun cd =>
    match score cd.2 with
    | some s => if s ≥ threshold then some (cd.1, s) else none
    | none => none)

/-- Spec-side lookup: the first candidate clearing the threshold whose score
is greatest (first-seen wins on ties); nothing when no candidate clears the
threshold. -/
def spec_lookup (score : String → Option ℚ) (threshold : ℚ)
    (pairs : List (String × String)) : Option String :=
  ((qualifying score threshold pairs).find?
    (fun p => (qualifying score threshold pairs).all (fun r => decide (r.2 ≤ p.2)))).map
    Prod.fst

/-- The accumulator step restricted to already-qualifying candidates. -/
def step2 (acc : Option String × ℚ) (p : String × ℚ) : Option String × ℚ :=
  if acc.2 < p.2 then (some p.1, p.2) else acc

/-- Running maximum of candidate scores, seeded with `s₀`. -/
def maxFrom (s₀ : ℚ) (l : List (String × ℚ)) : ℚ :=
  l.foldl (fun m p => max m p.2) s₀

theorem find?_congr_on {α : Type} (l : List α) (p q : α → Bool)
    (h : ∀ a ∈ l, p a = q a) : l.find? p = l.find? q := by
  induction l with
  | nil => rfl
  | cons a t ih =>
    have ha := h a (List.mem_cons_self a t)
    simp only [List.find?, ← ha]
    cases hpa : p a
    · exact ih (fun b hb => h b (List.mem_cons_of_mem a hb))
    · rfl

theorem le_maxFrom_init (l : List (String × ℚ)) : ∀ s₀ : ℚ, s₀ ≤ maxFrom s₀ l := by
  induction l with
  | nil => intro s₀; exact le_refl s₀
  | cons a t ih =>
    intro s₀
    exact le_trans (le_max_left s₀ a.2) (ih (max s₀ a.2))

theorem le_maxFrom_mem (l : List (String × ℚ)) :
    ∀ (s₀ : ℚ) (p : String × ℚ), p ∈ l → p.2 ≤ maxFrom s₀ l := by
  induction l with
  | nil => intro s₀ p hp; exact absurd hp (List.not_mem_nil p)
  | cons a t ih =>
    intro s₀ p hp
    rcases List.mem_cons.mp hp with h | h
    · subst h
      exact le_trans (le_max_right s₀ p.2) (le_maxFrom_init t (max s₀ p.2))
    · exact ih (max s₀ a.2) p h

theorem maxFrom_le (l : List (String × ℚ)) :
    ∀ (s₀ c : ℚ), s₀ ≤ c → (∀ p ∈ l, p.2 ≤ c) → maxFrom s₀ l ≤ c := by
  induction l with
  | nil => intro s₀ c h₀ _; exact h₀
  | cons a t ih =>
    intro s₀ c h₀ h
    exact ih (max s₀ a.2) c
      (max_le h₀ (h a (List.mem_cons_self a t)))
      (fun p hp => h p (List.mem_cons_of_mem a hp))

theorem maxFrom_attained (l : List (String × ℚ)) :
    ∀ s₀ : ℚ, maxFrom s₀ l = s₀ ∨ ∃ p ∈ l, maxFrom s₀ l = p.2 := by
  induction l with
  | nil => intro s₀; exact Or.inl rfl
  | cons a t ih =>
    intro s₀
    have h : maxFrom s₀ (a :: t) = maxFrom (max s₀ a.2) t := rfl
    rcases ih (max s₀ a.2) with h1 | ⟨p, hp, hpe⟩
    · rcases le_total s₀ a.2 with hle | hle
      · exact Or.inr ⟨a, List.mem_cons_self a t, by rw [h, h1, max_eq_right hle]⟩
      · exact Or.inl (by rw [h, h1, max_eq_left hle])
    · exact Or.inr ⟨p, List.mem_cons_of_mem a hp, by rw [h, hpe]⟩

theorem step2_foldl_gen (M : ℚ) (l : List (String × ℚ)) :
    ∀ (b : Option String) (s₀ : ℚ), M = maxFrom s₀ l →
      List.foldl step2 (b, s₀) l =
        (match l.find? (fun p => decide (s₀ < p.2) && decide (M ≤ p.2)) with
         | some p => (some p.1, p.2)
         | none => (b, s₀)) := by
  induction l with
  | nil => intro b s₀ _; rfl
  | cons a t ih =>
    intro b s₀ hM
    have hMc : maxFrom s₀ (a :: t) = maxFrom (max s₀ a.2) t := rfl
    by_cases hp : s₀ < a.2
    · have hm : max s₀ a.2 = a.2 := max_eq_right (le_of_lt hp)
      have hM2 : M = maxFrom a.2 t := by rw [hM, hMc, hm]
      have hstep : step2 (b, s₀) a = (some a.1, a.2) := by simp [step2, hp]
      rw [List.foldl_cons, hstep, ih (some a.1) a.2 hM2]
      by_cases htop : M ≤ a.2
      · -- `a` attains the maximum: no later candidate strictly exceeds it
        have hnone : t.find? (fun p => decide (a.2 < p.2) && decide (M ≤ p.2)) = none := by
          rw [List.find?_eq_none]
          intro p hmem
          have h1 : p.2 ≤ maxFrom a.2 t := le_maxFrom_mem t a.2 p hmem
          have h2 : ¬ a.2 < p.2 := not_lt.mpr (le_trans h1 (hM2 ▸ htop))
          simp [h2]
        have hfind : (a :: t).find?
            (fun p => decide (s₀ < p.2) && decide (M ≤ p.2)) = some a := by
          have hcond : (decide (s₀ < a.2) && decide (M ≤ a.2)) = true := by
            simp [hp, htop]
          simp [List.find?_cons, hcond]
        rw [hnone, hfind]
      · -- the maximum is attained strictly after `a`
        have hMgt : a.2 < M := lt_of_not_le htop
        have hpredeq : ∀ p ∈ t,
            (decide (a.2 < p.2) && decide (M ≤ p.2)) =
            (decide (s₀ < p.2) && decide (M ≤ p.2)) := by
          intro p _
          by_cases hq : M ≤ p.2
          · have h1 : a.2 < p.2 := lt_of_lt_of_le hMgt hq
            have h2 : s₀ < p.2 := lt_trans hp h1
            simp [hq, h1, h2]
          · simp [hq]
        have hcond : (decide (s₀ < a.2) && decide (M ≤ a.2)) = false := by simp [htop]
        rw [find?_congr_on t _ _ hpredeq]
        have hconsfind : (a :: t).find?
            (fun p => decide (s₀ < p.2) && decide (M ≤ p.2)) =
            t.find? (fun p => decide (s₀ < p.2) && decide (M ≤ p.2)) := by
          simp [List.find?_cons, hcond]
        rw [hconsfind]
        rcases hfind2 : t.find? (fun p => decide (s₀ < p.2) && decide (M ≤ p.2)) with _ | p
        · exfalso
          rcases maxFrom_attained t a.2 with h1 | ⟨p, hpm, hpe⟩
          · exact htop (le_of_eq (hM2.trans h1))
          · have hMp : M = p.2 := hM2.trans hpe
            have hnp := List.find?_eq_none.mp hfind2 p hpm
            apply hnp
            have hs : s₀ < p.2 := hMp ▸ lt_trans hp hMgt
            simp [hs, le_of_eq hMp]
        · rw [hfind2]
    · have hm : max s₀ a.2 = s₀ := max_eq_left (not_lt.mp hp)
      have hM2 : M = maxFrom s₀ t := by rw [hM, hMc, hm]
      have hstep : step2 (b, s₀) a = (b, s₀) := by simp [step2, hp]
      have hcond : (decide (s₀ < a.2) && decide (M ≤ a.2)) = false := by simp [hp]
      rw [List.foldl_cons, hstep, ih b s₀ hM2]
      have hconsfind : (a :: t).find?
          (fun p => decide (s₀ < p.2) && decide (M ≤ p.2)) =
          t.find? (fun p => decide (s₀ < p.2) && decide (M ≤ p.2)) := by
        simp [List.find?_cons, hcond]
      rw [hconsfind]

theorem qualifying_score_ge (score : String → Option ℚ) (threshold : ℚ)
    (pairs : List (String × String)) :
    ∀ p ∈ qualifying score threshold pairs, threshold ≤ p.2 := by
  intro p hp
  simp only [qualifying, List.mem_filterMap] at hp
  obtain ⟨cd, _, h⟩ := hp
  cases hsc : score cd.2 with
  | none =>
    simp only [hsc] at h
    exact absurd h (by simp)
  | some s =>
    simp only [hsc] at h
    split_ifs at h with hth
    · simp only [Option.some.injEq] at h
      subst h
      exact hth

theorem searchStep_foldl_qualifying (score : String → Option ℚ) (threshold : ℚ)
    (pairs : List (String × String)) :
    ∀ acc, List.foldl (searchStep score threshold) acc pairs =
      List.foldl step2 acc (qualifying score threshold pairs) := by
  induction pairs with
  | nil => intro acc; rfl
  | cons cd t ih =>
    intro acc
    cases hsc : score cd.2 with
    | none =>
      simp only [List.foldl_cons, qualifying, List.filterMap_cons, hsc]
      have : searchStep score threshold acc cd = acc := by
        simp [searchStep, hsc]
      rw [this]
      exact ih acc
    | some s =>
      by_cases hth : s ≥ threshold
      · have hq : qualifying score threshold (cd :: t) =
            (cd.1, s) :: qualifying score threshold t := by
          simp [qualifying, List.filterMap_cons, hsc, hth]
        have hstep : searchStep score threshold acc cd = step2 acc (cd.1, s) := by
          simp only [searchStep, hsc, step2]
          by_cases hgt : acc.2 < s
          · rw [if_pos ⟨hgt, hth⟩, if_pos hgt]
          · rw [if_neg (fun h => hgt h.1), if_neg hgt]
        rw [List.foldl_cons, hstep, hq, List.foldl_cons]
        exact ih (step2 acc (cd.1, s))
      · have hq : qualifying score threshold (cd :: t) =
            qualifying score threshold t := by
          simp [qualifying, List.filterMap_cons, hsc, hth]
        have hstep : searchStep score threshold acc cd = acc := by
          simp only [searchStep, hsc]
          rw [if_neg (fun h => hth h.2)]
        rw [List.foldl_cons, hstep, hq]
        exact ih acc

theorem searchLoop_eq_spec (score : String → Option ℚ) (threshold : ℚ)
    (hθ : 0 < threshold) (pairs : List (String × String)) :
    (searchLoop score threshold pairs).1 = spec_lookup score threshold pairs := by
  unfold searchLoop spec_lookup
  rw [searchStep_foldl_qualifying,
    step2_foldl_gen (maxFrom 0 (qualifying score threshold pairs))
      (qualifying score threshold pairs) none 0 rfl]
  have hq := qualifying_score_ge score threshold pairs
  set q := qualifying score threshold pairs with hqdef
  have hpred : ∀ p ∈ q,
      (decide ((0:ℚ) < p.2) && decide (maxFrom 0 q ≤ p.2)) =
      q.all (fun r => decide (r.2 ≤ p.2)) := by
    intro p hp
    have h1 : (0:ℚ) < p.2 := lt_of_lt_of_le hθ (hq p hp)
    by_cases hm : maxFrom 0 q ≤ p.2
    · have hall : ∀ r ∈ q, r.2 ≤ p.2 := fun r hr =>
        le_trans (le_maxFrom_mem q 0 r hr) hm
      have hrhs : q.all (fun r => decide (r.2 ≤ p.2)) = true := by
        rw [List.all_eq_true]
        intro r hr
        exact decide_eq_true (hall r hr)
      rw [hrhs]
      simp [h1, hm]
    · have hnall : ¬ (∀ r ∈ q, r.2 ≤ p.2) := fun hall =>
        hm (maxFrom_le q 0 p.2 (le_of_lt h1) hall)
      have hrhs : q.all (fun r => decide (r.2 ≤ p.2)) = false :=
        Bool.eq_false_iff.mpr (fun htrue => hnall (fun r hr =>
          of_decide_eq_true (List.all_eq_true.mp htrue r hr)))
      rw [hrhs]
      simp [hm]
  rw [find?_congr_on q _ _ hpred]
  cases q.find? (fun p => q.all (fun r => decide (r.2 ≤ p.2))) <;> rfl

/-! ## Run characterization lemmas -/

theorem process_transcript_parsed (O : RunOracle) (n : Nat) (d : ExtractedData)
    (h : O.initial = .parsed d) :
    process_transcript O true n =
      (⟨n, true, some d, some (runValidation O.validator d), [], none⟩,
       ⟨1, entityCount d⟩) := by
  unfold process_transcript
  rw [h]
  rfl

theorem self_correct_of_invalid (retry : GenResult) (d : ExtractedData)
    (v : ValidationResults) (h : totalInvalid v ≠ 0) :
    self_correct_with_retry retry d v =
      ((match retry with | .parsed e => e | _ => d), 1) := by
  unfold self_correct_with_retry
  have hne : ¬ (v.medications.filter (fun r => !r.valid) = [] ∧
      v.conditions.filter (fun r => !r.valid) = []) := by
    intro ⟨h1, h2⟩
    apply h
    unfold totalInvalid countInvalid
    rw [h1, h2]
    rfl
  rw [if_neg hne]
  cases retry <;> rfl

theorem wf_clean (O : RunOracle) (n : Nat) (d : ExtractedData)
    (h : O.initial = .parsed d)
    (hv : totalInvalid (runValidation O.validator d) = 0) :
    process_transcript_with_fallback O true n =
      (⟨n, true, some d, some (runValidation O.validator d), [], none⟩,
       ⟨1, entityCount d⟩) := by
  unfold process_transcript_with_fallback
  rw [process_transcript_parsed O n d h]
  simp [hv]

theorem wf_selfcorrect (O : RunOracle) (n : Nat) (d : ExtractedData)
    (h : O.initial = .parsed d)
    (hv : totalInvalid (runValidation O.validator d) ≠ 0)
    (hr : totalInvalid (runValidation O.validator
      (self_correct_with_retry O.retry d (runValidation O.validator d)).1) = 0) :
    process_transcript_with_fallback O true n =
      ({ input_length := n, success := true,
         extracted_data := some (self_correct_with_retry O.retry d (runValidation O.validator d)).1,
         validation_results := some (runValidation O.validator
           (self_correct_with_retry O.retry d (runValidation O.validator d)).1),
         errors := [],
         correction_stages := some ["initial", "self_correct"] },
       ⟨1 + (self_correct_with_retry O.retry d (runValidation O.validator d)).2,
        entityCount d + entityCount (self_correct_with_retry O.retry d (runValidation O.validator d)).1⟩) := by
  unfold process_transcript_with_fallback
  rw [process_transcript_parsed O n d h]
  simp [hv, hr]

theorem wf_fallback (O : RunOracle) (n : Nat) (d : ExtractedData)
    (h : O.initial = .parsed d)
    (hv : totalInvalid (runValidation O.validator d) ≠ 0)
    (hr : totalInvalid (runValidation O.validator
      (self_correct_with_retry O.retry d (runValidation O.validator d)).1) ≠ 0) :
    process_transcript_with_fallback O true n =
      ({ input_length := n, success := true,
         extracted_data := some (fallback_to_vector_db
           (self_correct_with_retry O.retry d (runValidation O.validator d)).1
           (runValidation O.validator
             (self_correct_with_retry O.retry d (runValidation O.validator d)).1)),
         validation_results := some (runFinalValidation O.validator
           (fallback_to_vector_db
             (self_correct_with_retry O.retry d (runValidation O.validator d)).1
             (runValidation O.validator
               (self_correct_with_retry O.retry d (runValidation O.validator d)).1))),
         errors := [],
         correction_stages := some ["initial", "self_correct", "vector_db"] },
       ⟨1 + (self_correct_with_retry O.retry d (runValidation O.validator d)).2,
        entityCount d
          + entityCount (self_correct_with_retry O.retry d (runValidation O.validator d)).1
          + entityCount (fallback_to_vector_db
              (self_correct_with_retry O.retry d (runValidation O.validator d)).1
              (runValidation O.validator
                (self_correct_with_retry O.retry d (runValidation O.validator d)).1))⟩) := by
  unfold process_transcript_with_fallback
  rw [process_transcript_parsed O n d h]
  simp [hv, Nat.pos_of_ne_zero hr, Nat.add_assoc]

theorem wf_failed (O : RunOracle) (validate : Bool) (n : Nat)
    (h : ∀ d, O.initial ≠ .parsed d) :
    process_transcript_with_fallback O validate n = process_transcript O validate n := by
  unfold process_transcript_with_fallback process_transcript
  cases hI : O.initial with
  | throws msg => simp
  | parseFail => simp
  | parsed d => exact absurd hI (h d)

theorem wf_novalidate (O : RunOracle) (n : Nat) :
    process_transcript_with_fallback O false n = process_transcript O false n := by
  unfold process_transcript_with_fallback
  simp

/-- Entity counts are preserved by the fallback stage when the validation
lists have matching lengths (as produced by `runValidation`). -/
theorem entityCount_fallback (V : FhirValidator) (d : ExtractedData) :
    entityCount (fallback_to_vector_db d (runValidation V d)) = entityCount d := by
  unfold entityCount fallback_to_vector_db runValidation validateMeds validateConds
  simp [List.length_zip]

/-! ## Structural helper lemmas -/

theorem zip_get?_some {α β : Type} (l1 : List α) (l2 : List β) :
    ∀ (i : Nat) (a : α) (b : β), l1.get? i = some a → l2.get? i = some b →
      (l1.zip l2).get? i = some (a, b) := by
  induction l1 generalizing l2 with
  | nil => intro i a b h1 _; simp at h1
  | cons x t ih =>
    intro i a b h1 h2
    cases l2 with
    | nil => simp at h2
    | cons y s =>
      cases i with
      | zero =>
        simp only [List.get?, Option.some.injEq] at h1 h2
        subst h1
        subst h2
        rfl
      | succ j =>
        simp only [List.get?] at h1 h2
        exact ih s j a b h1 h2

theorem fallback_meds_get? (d : ExtractedData) (v : ValidationResults) (i : Nat)
    (m : MedEntity) (r : VRecord)
    (hm : d.medications.get? i = some m) (hr : v.medications.get? i = some r) :
    (fallback_to_vector_db d v).medications.get? i =
      some (if r.valid = true then m
        else match search_rxnorm m.name (mkRat 7 10) with
          | some code =>
            { m with rxnorm_code := some code, source := some "vector_db_fallback" }
          | none => m) := by
  unfold fallback_to_vector_db
  rw [List.get?_map, zip_get?_some d.medications v.medications i m r hm hr]
  by_cases hv : r.valid = true <;> simp [hv]

theorem fallback_conds_get? (d : ExtractedData) (v : ValidationResults) (i : Nat)
    (c : CondEntity) (r : VRecord)
    (hc : d.conditions.get? i = some c) (hr : v.conditions.get? i = some r) :
    (fallback_to_vector_db d v).conditions.get? i =
      some (if r.valid = true then c
        else match search_icd10 c.name (mkRat 7 10) with
          | some code =>
            { c with icd10_code := some code, source := some "vector_db_fallback" }
          | none => c) := by
  unfold fallback_to_vector_db
  rw [List.get?_map, zip_get?_some d.conditions v.conditions i c r hc hr]
  by_cases hv : r.valid = true <;> simp [hv]

/-! ## Claim C3 -/

/-- C3, corrected.  Amended claim: the fallback stage produces a snapshot in
which only entities failing validation are modified, and even a modified
entity keeps its name, dosage, frequency and clinical status (only the code
and source change).  The self-correction stage, by contrast, replaces the
whole extraction with the newly parsed output (entities that passed
validation are not preserved), and because the fallback starts from a
shallow `dict.copy()`, the prior stage's entity records are mutated in
place, not copied. -/
theorem C3_theorem (d : ExtractedData) (v : ValidationResults) :
    (∀ i r m, v.medications.get? i = some r → d.medications.get? i = some m →
      r.valid = true → (fallback_to_vector_db d v).medications.get? i = some m) ∧
    (∀ i r c, v.conditions.get? i = some r → d.conditions.get? i = some c →
      r.valid = true → (fallback_to_vector_db d v).conditions.get? i = some c) ∧
    (∀ i r m m2, v.medications.get? i = some r → d.medications.get? i = some m →
      (fallback_to_vector_db d v).medications.get? i = some m2 →
      m2.name = m.name ∧ m2.dosage = m.dosage ∧ m2.frequency = m.frequency) ∧
    (∀ i r c c2, v.conditions.get? i = some r → d.conditions.get? i = some c →
      (fallback_to_vector_db d v).conditions.get? i = some c2 →
      c2.name = c.name ∧ c2.clinical_status = c.clinical_status) := by
  refine ⟨?_, ?_, ?_, ?_⟩
  · intro i r m hr hm hval
    rw [fallback_meds_get? d v i m r hm hr, if_pos hval]
  · intro i r c hr hc hval
    rw [fallback_conds_get? d v i c r hc hr, if_pos hval]
  · intro i r m m2 hr hm hm2
    rw [fallback_meds_get? d v i m r hm hr] at hm2
    simp only [Option.some.injEq] at hm2
    by_cases hval : r.valid = true
    · rw [if_pos hval] at hm2
      rw [← hm2]
      exact ⟨rfl, rfl, rfl⟩
    · rw [if_neg hval] at hm2
      cases hs : search_rxnorm m.name (mkRat 7 10) with
      | some code => rw [hs] at hm2; rw [← hm2]; exact ⟨rfl, rfl, rfl⟩
      | none => rw [hs] at hm2; rw [← hm2]; exact ⟨rfl, rfl, rfl⟩
  · intro i r c c2 hr hc hc2
    rw [fallback_conds_get? d v i c r hc hr] at hc2
    simp only [Option.some.injEq] at hc2
    by_cases hval : r.valid = true
    · rw [if_pos hval] at hc2
      rw [← hc2]
      exact ⟨rfl, rfl⟩
    · rw [if_neg hval] at hc2
      cases hs : search_icd10 c.name (mkRat 7 10) with
      | some code => rw [hs] at hc2; rw [← hc2]; exact ⟨rfl, rfl⟩
      | none => rw [hs] at hc2; rw [← hc2]; exact ⟨rfl, rfl⟩

/-- C3 witness: the frame property of the fallback stage evaluated at a
concrete snapshot whose only medication passed validation. -/
theorem C3_witness :
    C3wv.medications.get? 0 = some ⟨"Aspirin", true, none, none⟩ ∧
    C3wd.medications.get? 0 = some ⟨"Aspirin", some "197361", none, none, none⟩ ∧
    (⟨"Aspirin", true, none, none⟩ : VRecord).valid = true ∧
    (fallback_to_vector_db C3wd C3wv).medications.get? 0 =
      some ⟨"Aspirin", some "197361", none, none, none⟩ :=
  ⟨rfl, rfl, rfl,
   (C3_theorem C3wd C3wv).1 0 ⟨"Aspirin", true, none, none⟩
     ⟨"Aspirin", some "197361", none, none, none⟩ rfl rfl rfl⟩

set_option maxRecDepth 100000 in
/-- C3 counterexample: the claim as stated is false.  (1) The
self-correction stage returns the retry parse wholesale: the medication at
index 0 passed validation, yet the new snapshot does not keep it.  (2) The
fallback loop mutates the shared entity records: viewing the prior
snapshot's references through the post-fallback heap no longer yields the
prior data. -/
theorem C3_counterexample :
    (self_correct_with_retry (GenResult.parsed C3retry) C3prior C3val).1 = C3retry ∧
    (C3val.medications.get? 0).map VRecord.valid = some true ∧
    C3retry.medications.get? 0 ≠ C3prior.medications.get? 0 ∧
    viewSnapshot (fallbackMedsHeap C3heap [0] [C3vrec]) [0] ≠
      viewSnapshot C3heap [0] := by
  decide

/-! ## Claim C5 -/

theorem bind_map_strmk (o : Option (List Char)) (loads : String → Option Json) :
    (o.map String.mk).bind loads = o.bind (fun c => loads (String.mk c)) := by
  cases o <;> rfl

/-- C5, corrected.  Amended claim: the parser tries, in order, the labeled
fenced block, the unlabeled fenced block, the first-to-last brace span, then
the whole text, and returns the first variant that parses as JSON at all —
it performs no schema check, so the result need not be an object with
`medications` and `conditions` sequences; it returns nothing when all four
attempts fail to parse. -/
theorem C5_theorem (loads : String → Option Json) (response : String) :
    extract_json_from_response loads response =
      firstParsed loads (parseCandidates response) := by
  unfold extract_json_from_response parseCandidates
  simp only [firstParsed, bind_map_strmk]
  cases (fencedSpan ("```json\n".toList) ("\n```".toList) response.toList).bind
      (fun c => loads (String.mk c)) with
  | some j => rfl
  | none =>
    cases (fencedSpan ("```\n".toList) ("\n```".toList) response.toList).bind
        (fun c => loads (String.mk c)) with
    | some j => rfl
    | none =>
      cases (braceSpan response.toList).bind (fun c => loads (String.mk c)) with
      | some j => rfl
      | none =>
        simp only [Option.some_bind]
        cases loads response <;> rfl

/-- C5 counterexample: on the raw response `{"a": 1}` — whose only
brace-delimited span real `json.loads` decodes to the object `{a: 1}` — the
parser returns that object even though it does not conform to the
medications/conditions schema, whereas the claimed parser would return
nothing. -/
theorem C5_counterexample :
    extract_json_from_response C5loads C5response = some C5json ∧
    conformsSchema C5json = false :=
  ⟨rfl, rfl⟩

/-! ## Claim C6 -/

/-- C6, corrected.  Amended claim: lookup scores each (code, description)
pair by the token-overlap ratio and returns the highest-scoring code with
score ≥ threshold, ties resolved first-seen in insertion order, nothing
when no candidate qualifies — but the substring shortcut (score = 1.0 when
the lowercased term occurs inside the description) exists only in the
medication store, not the condition store; and through that shortcut a term
that tokenizes to the empty set (e.g. the empty string, a substring of
every description) returns the first medication code rather than
nothing. -/
theorem C6_theorem (term : String) (threshold : ℚ) (hpos : 0 < threshold) :
    search_icd10 term threshold =
      spec_lookup (scoreIcd10 (pyLower term)) threshold icd10_codes ∧
    search_rxnorm term threshold =
      spec_lookup (scoreRxnorm (pyLower term)) threshold rxnorm_codes :=
  ⟨searchLoop_eq_spec (scoreIcd10 (pyLower term)) threshold hpos icd10_codes,
   searchLoop_eq_spec (scoreRxnorm (pyLower term)) threshold hpos rxnorm_codes⟩

/-- C6 witness: the characterization instantiated at the default threshold
7/10 and a concrete medication name. -/
theorem C6_witness :
    (0 : ℚ) < mkRat 7 10 ∧
    search_rxnorm C6term (mkRat 7 10) =
      spec_lookup (scoreRxnorm (pyLower C6term)) (mkRat 7 10) rxnorm_codes :=
  ⟨by decide, (C6_theorem C6term (mkRat 7 10) (by decide)).2⟩

set_option maxRecDepth 100000 in
/-- C6 counterexample: the claim as stated is false on both stores.  The
empty term tokenizes to the empty set, yet the medication lookup returns the
first code (the shortcut fires because the empty string is a substring of
every description); and the condition store has no substring shortcut: the
term "ney disease" is a literal substring of the description of N18.3, yet
the lookup misses. -/
theorem C6_counterexample :
    pySplit "" = [] ∧
    search_rxnorm "" (mkRat 7 10) = some "314076" ∧
    pyIn "ney disease" (pyLower "Chronic kidney disease, stage 3") = true ∧
    search_icd10 "ney disease" (mkRat 7 10) = none := by
  decide

/-! ## Claim C1 -/

theorem process_transcript_throws (O : RunOracle) (validate : Bool) (n : Nat)
    (msg : String) (h : O.initial = .throws msg) :
    process_transcript O validate n =
      (⟨n, false, none, none, ["Inference failed: " ++ msg], none⟩, ⟨1, 0⟩) := by
  unfold process_transcript
  rw [h]

theorem process_transcript_parsed_novalidate (O : RunOracle) (n : Nat)
    (d : ExtractedData) (h : O.initial = .parsed d) :
    process_transcript O false n =
      (⟨n, true, some d, none, [], none⟩, ⟨1, 0⟩) := by
  unfold process_transcript
  rw [h]
  rfl

theorem process_transcript_parsefail (O : RunOracle) (validate : Bool) (n : Nat)
    (h : O.initial = .parseFail) :
    process_transcript O validate n =
      (⟨n, false, none, none, ["Failed to extract valid JSON from response"], none⟩,
       ⟨1, 0⟩) := by
  unfold process_transcript
  rw [h]

/-- C1, corrected.  Amended claim: the correction state machine always
terminates having made at most 2 generation calls, and at most 3×N
validation calls, where N is the largest entity count (medications plus
conditions) of any extraction snapshot in the run — the initial validation,
the post-correction re-validation, and the post-fallback final validation
each validate every entity once, so three rounds occur when the fallback
stage runs. -/
theorem C1_theorem (O : RunOracle) (validate : Bool) (n : Nat) :
    (process_transcript_with_fallback O validate n).2.gen ≤ 2 ∧
    (process_transcript_with_fallback O validate n).2.val ≤
      3 * max (genEntityCount O.initial) (genEntityCount O.retry) := by
  cases hI : O.initial with
  | throws msg =>
    rw [wf_failed O validate n (fun e he => by rw [hI] at he; cases he),
      process_transcript_throws O validate n msg hI]
    exact ⟨by show (1:ℕ) ≤ 2; omega, Nat.zero_le _⟩
  | parseFail =>
    rw [wf_failed O validate n (fun e he => by rw [hI] at he; cases he),
      process_transcript_parsefail O validate n hI]
    exact ⟨by show (1:ℕ) ≤ 2; omega, Nat.zero_le _⟩
  | parsed d =>
    cases validate with
    | false =>
      rw [wf_novalidate, process_transcript_parsed_novalidate O n d hI]
      exact ⟨by show (1:ℕ) ≤ 2; omega, Nat.zero_le _⟩
    | true =>
      rw [show genEntityCount (GenResult.parsed d) = entityCount d from rfl]
      set M := max (entityCount d) (genEntityCount O.retry) with hM
      have hdb : entityCount d ≤ M := hM ▸ le_max_left _ _
      by_cases hv : totalInvalid (runValidation O.validator d) = 0
      · rw [wf_clean O n d hI hv]
        refine ⟨by show (1:ℕ) ≤ 2; omega, ?_⟩
        show entityCount d ≤ 3 * M
        omega
      · have hsc := self_correct_of_invalid O.retry d (runValidation O.validator d) hv
        have hgen : (self_correct_with_retry O.retry d (runValidation O.validator d)).2 = 1 := by
          rw [hsc]
        have hcorb : entityCount (self_correct_with_retry O.retry d
            (runValidation O.validator d)).1 ≤ M := by
          rw [hsc]
          cases hR : O.retry with
          | parsed e =>
            show entityCount e ≤ M
            rw [hM, hR, show genEntityCount (GenResult.parsed e) = entityCount e from rfl]
            exact le_max_right _ _
          | throws m =>
            show entityCount d ≤ M
            exact hdb
          | parseFail =>
            show entityCount d ≤ M
            exact hdb
        by_cases hr : totalInvalid (runValidation O.validator
            (self_correct_with_retry O.retry d (runValidation O.validator d)).1) = 0
        · rw [wf_selfcorrect O n d hI hv hr]
          refine ⟨?_, ?_⟩
          · show 1 + (self_correct_with_retry O.retry d (runValidation O.validator d)).2 ≤ 2
            omega
          · show entityCount d + entityCount (self_correct_with_retry O.retry d
              (runValidation O.validator d)).1 ≤ 3 * M
            omega
        · rw [wf_fallback O n d hI hv hr]
          have hf := entityCount_fallback O.validator
            (self_correct_with_retry O.retry d (runValidation O.validator d)).1
          refine ⟨?_, ?_⟩
          · show 1 + (self_correct_with_retry O.retry d (runValidation O.validator d)).2 ≤ 2
            omega
          · show entityCount d
              + entityCount (self_correct_with_retry O.retry d (runValidation O.validator d)).1
              + entityCount (fallback_to_vector_db
                  (self_correct_with_retry O.retry d (runValidation O.validator d)).1
                  (runValidation O.validator
                    (self_correct_with_retry O.retry d (runValidation O.validator d)).1)) ≤ 3 * M
            omega

set_option maxRecDepth 100000 in
/-- C1 counterexample: the claim's 2×N validation-call bound is false.  A
run with a single extracted entity that fails the initial validation, a
correction round that fails to parse, and a fallback lookup that misses
performs 3 validation calls — one per round — exceeding 2×N = 2. -/
theorem C1_counterexample :
    (process_transcript_with_fallback C1oracle true 3).2.gen = 2 ∧
    (process_transcript_with_fallback C1oracle true 3).2.val = 3 ∧
    entityCount C1data = 1 ∧ ¬ (3 ≤ 2 * entityCount C1data) := by
  decide

/-! ## Claim C2 -/

/-- C2, confirmed at the API boundary.  When the initial validation yields
zero invalid entities, the run stops after the initial stage: exactly one
generation call is made, the HTTP response metadata reports
`correction_stages == ["initial"]` (the pipeline result itself carries no
`correction_stages` key, which the view defaults to `["initial"]`). -/
theorem C2_theorem (O : RunOracle) (body : ApiRequest) (d : ExtractedData)
    (hval : body.validate_fhir = true) (hfb : body.use_fallback = true)
    (hinit : O.initial = .parsed d)
    (hv : totalInvalid (runValidation O.validator d) = 0)
    (hne : pyStrip (body.transcript.getD "") ≠ "")
    (hlen : (pyStrip (body.transcript.getD "")).length ≤ 10000) :
    (process_medical_text O true body).1 =
      ViewResponse.ok true (some d) (some (runValidation O.validator d)) ["initial"] [] ∧
    (process_transcript_with_fallback O true
      (pyStrip (body.transcript.getD "")).length).2.gen = 1 ∧
    (process_transcript_with_fallback O true
      (pyStrip (body.transcript.getD "")).length).1.correction_stages = none := by
  have hwf := wf_clean O (pyStrip (body.transcript.getD "")).length d hinit hv
  refine ⟨?_, by rw [hwf], by rw [hwf]⟩
  unfold process_medical_text
  rw [if_neg hne,
    if_neg (by omega : ¬ (pyStrip (body.transcript.getD "")).length > 10000)]
  simp only [hfb, hval, hwf, if_true, not_true]
  rfl

/-- C2 witness: the single-stage run at a concrete all-valid oracle. -/
theorem C2_witness :
    (⟨some "hi", true, true⟩ : ApiRequest).validate_fhir = true ∧
    C2oracle.initial = .parsed C2data ∧
    totalInvalid (runValidation C2oracle.validator C2data) = 0 ∧
    pyStrip ((⟨some "hi", true, true⟩ : ApiRequest).transcript.getD "") ≠ "" ∧
    (process_medical_text C2oracle true ⟨some "hi", true, true⟩).1 =
      ViewResponse.ok true (some C2data)
        (some (runValidation C2oracle.validator C2data)) ["initial"] [] :=
  ⟨rfl, rfl, by decide, by decide,
   (C2_theorem C2oracle ⟨some "hi", true, true⟩ C2data rfl rfl rfl (by decide)
     (by decide) (by decide)).1⟩

/-! ## Claim C4 -/

theorem validateMeds_source_none (V : FhirValidator) (ms : List MedEntity) :
    ∀ r ∈ validateMeds V ms, r.source = none := by
  intro r hr
  unfold validateMeds at hr
  rcases List.mem_map.mp hr with ⟨m, _, he⟩
  rw [← he]

theorem validateConds_source_none (V : FhirValidator) (cs : List CondEntity) :
    ∀ r ∈ validateConds V cs, r.source = none := by
  intro r hr
  unfold validateConds at hr
  rcases List.mem_map.mp hr with ⟨c, _, he⟩
  rw [← he]

/-- C4, corrected.  Amended claim: when initial validation fails for an
entity and the single self-correction round produces data that re-validates
successfully, the returned result has
`correction_stages == [initial, self_correct]` — but the validation records
of that branch carry no `source` tag at all (the `source` field is attached
only by the final-validation stage after the vector-DB fallback, with
values `model` or `vector_db_fallback`; a `corrected` tag never occurs). -/
theorem C4_theorem (O : RunOracle) (n : Nat) (d : ExtractedData)
    (hinit : O.initial = .parsed d)
    (hv : totalInvalid (runValidation O.validator d) ≠ 0)
    (hr : totalInvalid (runValidation O.validator
      (self_correct_with_retry O.retry d (runValidation O.validator d)).1) = 0) :
    (process_transcript_with_fallback O true n).1.correction_stages =
      some ["initial", "self_correct"] ∧
    ∀ v, (process_transcript_with_fallback O true n).1.validation_results = some v →
      (∀ r ∈ v.medications, r.source = none) ∧ (∀ r ∈ v.conditions, r.source = none) := by
  rw [wf_selfcorrect O n d hinit hv hr]
  refine ⟨rfl, ?_⟩
  intro v hvv
  have hvv2 : runValidation O.validator
      (self_correct_with_retry O.retry d (runValidation O.validator d)).1 = v :=
    Option.some.inj hvv
  subst hvv2
  exact ⟨validateMeds_source_none _ _, validateConds_source_none _ _⟩

/-- C4 witness: the self-correct-success branch at a concrete run (one
condition with a malformed code, fixed by the correction round). -/
theorem C4_witness :
    C4oracle.initial = .parsed C4data ∧
    totalInvalid (runValidation C4oracle.validator C4data) ≠ 0 ∧
    totalInvalid (runValidation C4oracle.validator
      (self_correct_with_retry C4oracle.retry C4data
        (runValidation C4oracle.validator C4data)).1) = 0 ∧
    (process_transcript_with_fallback C4oracle true 7).1.correction_stages =
      some ["initial", "self_correct"] :=
  ⟨rfl, by decide, by decide,
   (C4_theorem C4oracle 7 C4data rfl (by decide) (by decide)).1⟩

set_option maxRecDepth 100000 in
/-- C4 counterexample: in the very scenario the claim describes, the
re-validation record of the corrected entity has no `source` field — in
particular it is not `corrected`. -/
theorem C4_counterexample :
    (process_transcript_with_fallback C4oracle true 7).1.correction_stages =
      some ["initial", "self_correct"] ∧
    (process_transcript_with_fallback C4oracle true 7).1.validation_results =
      some ⟨[], [⟨"Essential hypertension", true, none, none⟩]⟩ ∧
    (⟨"Essential hypertension", true, none, none⟩ : VRecord).source ≠ some "corrected" := by
  decide

/-! ## Claim C7 -/

/-- C7, confirmed.  If the correction round throws or fails to parse, the
self-correction stage returns the pre-correction extraction unchanged, the
run stays successful, and re-validation proceeds over the original data
(whose records either stand, or feed the fallback stage applied to that
same original data). -/
theorem C7_theorem (O : RunOracle) (n : Nat) (d : ExtractedData)
    (hinit : O.initial = .parsed d)
    (hv : totalInvalid (runValidation O.validator d) ≠ 0)
    (hfail : retryFailOutcome O.retry = true) :
    (self_correct_with_retry O.retry d (runValidation O.validator d)).1 = d ∧
    (process_transcript_with_fallback O true n).1.success = true ∧
    ((process_transcript_with_fallback O true n).1.validation_results =
       some (runValidation O.validator d) ∨
     (process_transcript_with_fallback O true n).1.validation_results =
       some (runFinalValidation O.validator
         (fallback_to_vector_db d (runValidation O.validator d)))) := by
  have hcor : (self_correct_with_retry O.retry d (runValidation O.validator d)).1 = d := by
    rw [self_correct_of_invalid O.retry d (runValidation O.validator d) hv]
    cases hR : O.retry with
    | parsed e =>
      rw [hR] at hfail
      simp [retryFailOutcome] at hfail
    | throws m => rfl
    | parseFail => rfl
  refine ⟨hcor, ?_, ?_⟩
  · by_cases hr0 : totalInvalid (runValidation O.validator
        (self_correct_with_retry O.retry d (runValidation O.validator d)).1) = 0
    · rw [wf_selfcorrect O n d hinit hv hr0]
    · rw [wf_fallback O n d hinit hv hr0]
  · by_cases hr0 : totalInvalid (runValidation O.validator
        (self_correct_with_retry O.retry d (runValidation O.validator d)).1) = 0
    · left
      rw [wf_selfcorrect O n d hinit hv hr0, hcor]
    · right
      rw [wf_fallback O n d hinit hv hr0, hcor]

/-- C7 witness: a run whose correction round throws; the original data is
kept and the run succeeds. -/
theorem C7_witness :
    totalInvalid (runValidation C7oracle.validator C7data) ≠ 0 ∧
    retryFailOutcome C7oracle.retry = true ∧
    (self_correct_with_retry C7oracle.retry C7data
      (runValidation C7oracle.validator C7data)).1 = C7data ∧
    (process_transcript_with_fallback C7oracle true 3).1.success = true :=
  ⟨by decide, rfl,
   (C7_theorem C7oracle 3 C7data rfl (by decide) rfl).1,
   (C7_theorem C7oracle 3 C7data rfl (by decide) rfl).2.1⟩

/-! ## Claim C8 -/

theorem runValidation_correspond (V : FhirValidator) (e : ExtractedData) :
    (runValidation V e).medications.length = e.medications.length ∧
    (runValidation V e).conditions.length = e.conditions.length ∧
    (∀ i, ((runValidation V e).medications.get? i).map VRecord.name =
      (e.medications.get? i).map MedEntity.name) ∧
    (∀ i, ((runValidation V e).conditions.get? i).map VRecord.name =
      (e.conditions.get? i).map CondEntity.name) ∧
    (∀ i, ((runValidation V e).medications.get? i).map VRecord.valid =
      (e.medications.get? i).map (fun m => (V.med m).1)) ∧
    (∀ i, ((runValidation V e).conditions.get? i).map VRecord.valid =
      (e.conditions.get? i).map (fun c => (V.cond c).1)) := by
  refine ⟨?_, ?_, ?_, ?_, ?_, ?_⟩
  · simp [runValidation, validateMeds]
  · simp [runValidation, validateConds]
  · intro i
    unfold runValidation validateMeds
    rw [List.get?_map]
    cases e.medications.get? i <;> rfl
  · intro i
    unfold runValidation validateConds
    rw [List.get?_map]
    cases e.conditions.get? i <;> rfl
  · intro i
    unfold runValidation validateMeds
    rw [List.get?_map]
    cases e.medications.get? i <;> rfl
  · intro i
    unfold runValidation validateConds
    rw [List.get?_map]
    cases e.conditions.get? i <;> rfl

theorem runFinalValidation_correspond (V : FhirValidator) (e : ExtractedData) :
    (runFinalValidation V e).medications.length = e.medications.length ∧
    (runFinalValidation V e).conditions.length = e.conditions.length ∧
    (∀ i, ((runFinalValidation V e).medications.get? i).map VRecord.name =
      (e.medications.get? i).map MedEntity.name) ∧
    (∀ i, ((runFinalValidation V e).conditions.get? i).map VRecord.name =
      (e.conditions.get? i).map CondEntity.name) ∧
    (∀ i, ((runFinalValidation V e).medications.get? i).map VRecord.valid =
      (e.medications.get? i).map (fun m => (V.med m).1)) ∧
    (∀ i, ((runFinalValidation V e).conditions.get? i).map VRecord.valid =
      (e.conditions.get? i).map (fun c => (V.cond c).1)) := by
  refine ⟨?_, ?_, ?_, ?_, ?_, ?_⟩
  · simp [runFinalValidation, finalValidateMeds]
  · simp [runFinalValidation, finalValidateConds]
  · intro i
    unfold runFinalValidation finalValidateMeds
    rw [List.get?_map]
    cases e.medications.get? i <;> rfl
  · intro i
    unfold runFinalValidation finalValidateConds
    rw [List.get?_map]
    cases e.conditions.get? i <;> rfl
  · intro i
    unfold runFinalValidation finalValidateMeds
    rw [List.get?_map]
    cases e.medications.get? i <;> rfl
  · intro i
    unfold runFinalValidation finalValidateConds
    rw [List.get?_map]
    cases e.conditions.get? i <;> rfl

/-- C8, confirmed.  Whatever stage produced the returned result of a
validated run, its validation lists have exactly the lengths of the
extracted entity lists, and record i carries the name of entity i and the
validator's verdict on entity i (positional correspondence). -/
theorem C8_theorem (O : RunOracle) (n : Nat) (d : ExtractedData) (v : ValidationResults)
    (hd : (process_transcript_with_fallback O true n).1.extracted_data = some d)
    (hv : (process_transcript_with_fallback O true n).1.validation_results = some v) :
    v.medications.length = d.medications.length ∧
    v.conditions.length = d.conditions.length ∧
    (∀ i, (v.medications.get? i).map VRecord.name =
      (d.medications.get? i).map MedEntity.name) ∧
    (∀ i, (v.conditions.get? i).map VRecord.name =
      (d.conditions.get? i).map CondEntity.name) ∧
    (∀ i, (v.medications.get? i).map VRecord.valid =
      (d.medications.get? i).map (fun m => (O.validator.med m).1)) ∧
    (∀ i, (v.conditions.get? i).map VRecord.valid =
      (d.conditions.get? i).map (fun c => (O.validator.cond c).1)) := by
  cases hI : O.initial with
  | throws msg =>
    rw [wf_failed O true n (fun e he => by rw [hI] at he; cases he)] at hd
    unfold process_transcript at hd
    rw [hI] at hd
    simp at hd
  | parseFail =>
    rw [wf_failed O true n (fun e he => by rw [hI] at he; cases he)] at hd
    unfold process_transcript at hd
    rw [hI] at hd
    simp at hd
  | parsed e =>
    by_cases hv0 : totalInvalid (runValidation O.validator e) = 0
    · rw [wf_clean O n e hI hv0] at hd hv
      have hde : e = d := Option.some.inj hd
      have hve : runValidation O.validator e = v := Option.some.inj hv
      subst hde
      subst hve
      exact runValidation_correspond O.validator e
    · by_cases hr0 : totalInvalid (runValidation O.validator
          (self_correct_with_retry O.retry e (runValidation O.validator e)).1) = 0
      · rw [wf_selfcorrect O n e hI hv0 hr0] at hd hv
        have hde := Option.some.inj hd
        have hve := Option.some.inj hv
        subst hde
        subst hve
        exact runValidation_correspond O.validator _
      · rw [wf_fallback O n e hI hv0 hr0] at hd hv
        have hde := Option.some.inj hd
        have hve := Option.some.inj hv
        subst hde
        subst hve
        exact runFinalValidation_correspond O.validator _

/-- C8 witness: the invariant evaluated on a concrete clean run. -/
theorem C8_witness :
    (process_transcript_with_fallback C8oracle true 4).1.extracted_data = some C8data ∧
    (process_transcript_with_fallback C8oracle true 4).1.validation_results =
      some (runValidation C8oracle.validator C8data) ∧
    (runValidation C8oracle.validator C8data).medications.length =
      C8data.medications.length :=
  ⟨by decide, by decide,
   (C8_theorem C8oracle 4 C8data (runValidation C8oracle.validator C8data)
     (by decide) (by decide)).1⟩

/-! ## Claim C9 -/

theorem dropWhile_cons_pos {p : Char → Bool} {a : Char} (l : List Char)
    (h : p a = true) : List.dropWhile p (a :: l) = List.dropWhile p l := by
  rw [List.dropWhile_cons, h]
  rfl

theorem dropWhile_cons_neg {p : Char → Bool} {a : Char} (l : List Char)
    (h : p a = false) : List.dropWhile p (a :: l) = a :: l := by
  rw [List.dropWhile_cons, h]
  rfl

theorem dropWhile_space_replicate (n : Nat) :
    List.dropWhile isPySpace (List.replicate n ' ') = [] := by
  induction n with
  | zero => rfl
  | succ k ih =>
    rw [List.replicate_succ, dropWhile_cons_pos _ (show isPySpace ' ' = true from rfl)]
    exact ih

theorem pyStripList_long :
    pyStripList (List.replicate 10000 'a' ++ [' ']) = List.replicate 10000 'a' := by
  unfold pyStripList
  have h1 : List.dropWhile isPySpace (List.replicate 10000 'a' ++ [' ']) =
      List.replicate 10000 'a' ++ [' '] := by
    rw [show List.replicate 10000 'a' = 'a' :: List.replicate 9999 'a' from rfl,
      List.cons_append, dropWhile_cons_neg _ (show isPySpace 'a' = false from rfl)]
  rw [h1, List.reverse_append, List.reverse_replicate]
  rw [show ([' '] : List Char).reverse ++ List.replicate 10000 'a' =
    ' ' :: List.replicate 10000 'a' from rfl]
  rw [dropWhile_cons_pos _ (show isPySpace ' ' = true from rfl)]
  rw [show List.replicate 10000 'a' = 'a' :: List.replicate 9999 'a' from rfl,
    dropWhile_cons_neg _ (show isPySpace 'a' = false from rfl)]
  rw [← List.replicate_succ, show (9999 : Nat) + 1 = 10000 from rfl,
    List.reverse_replicate]

theorem pyStrip_C9long : pyStrip C9long = String.mk (List.replicate 10000 'a') := by
  unfold pyStrip C9long C9longList
  rw [show (String.mk (List.replicate 10000 'a' ++ [' '])).toList =
    List.replicate 10000 'a' ++ [' '] from rfl]
  rw [pyStripList_long]

theorem pyStrip_C9spaces : pyStrip C9spaces = "" := by
  unfold pyStrip C9spaces
  rw [show (String.mk (List.replicate 10000 ' ')).toList =
    List.replicate 10000 ' ' from rfl]
  unfold pyStripList
  rw [dropWhile_space_replicate]
  rfl

/-- C9, corrected.  Amended claim: the length checks are applied to the
transcript after stripping leading/trailing whitespace (`str.strip()`): the
endpoint rejects with a 400, before invoking the pipeline, exactly when the
stripped transcript is empty or longer than 10,000 characters, and invokes
the pipeline otherwise.  In particular a raw transcript over 10,000
characters can be accepted (when stripping brings it to the limit), and a
raw transcript of exactly 10,000 characters can be rejected (when it strips
to empty). -/
theorem C9_theorem (O : RunOracle) (body : ApiRequest) :
    (pyStrip (body.transcript.getD "") = "" →
      process_medical_text O true body =
        (.badRequest "Missing transcript in request body", false)) ∧
    (pyStrip (body.transcript.getD "") ≠ "" →
      (pyStrip (body.transcript.getD "")).length > 10000 →
      process_medical_text O true body =
        (.badRequest "Transcript too long (max 10,000 characters)", false)) ∧
    (pyStrip (body.transcript.getD "") ≠ "" →
      (pyStrip (body.transcript.getD "")).length ≤ 10000 →
      (process_medical_text O true body).2 = true) := by
  refine ⟨?_, ?_, ?_⟩
  · intro h
    unfold process_medical_text
    rw [if_pos h]
  · intro h1 h2
    unfold process_medical_text
    rw [if_neg h1, if_pos h2]
  · intro h1 h2
    unfold process_medical_text
    rw [if_neg h1, if_neg (by omega : ¬ (pyStrip (body.transcript.getD "")).length > 10000)]
    simp

/-- C9 witness: a short transcript with surrounding whitespace is accepted
and reaches the pipeline. -/
theorem C9_witness :
    pyStrip ((⟨some " hi ", true, true⟩ : ApiRequest).transcript.getD "") ≠ "" ∧
    (pyStrip ((⟨some " hi ", true, true⟩ : ApiRequest).transcript.getD "")).length ≤ 10000 ∧
    (process_medical_text C9oracle true ⟨some " hi ", true, true⟩).2 = true :=
  ⟨by decide, by decide,
   (C9_theorem C9oracle ⟨some " hi ", true, true⟩).2.2 (by decide) (by decide)⟩

/-- C9 counterexample: the claim as stated is false in both directions.  A
10,001-character transcript (10,000 letters plus a trailing space) is
accepted and the pipeline is invoked, because the length check runs on the
stripped text; and a transcript of exactly 10,000 characters consisting of
whitespace is rejected with a 400 even though it is neither missing, empty,
nor over-length. -/
theorem C9_counterexample :
    C9long.length = 10001 ∧
    (process_medical_text C9oracle true ⟨some C9long, true, true⟩).2 = true ∧
    C9spaces.length = 10000 ∧
    (process_medical_text C9oracle true ⟨some C9spaces, true, true⟩).1 =
      .badRequest "Missing transcript in request body" := by
  have hlen : (String.mk (List.replicate 10000 'a')).length = 10000 := by
    show (List.replicate 10000 'a').length = 10000
    rw [List.length_replicate]
  refine ⟨?_, ?_, ?_, ?_⟩
  · show (List.replicate 10000 'a' ++ [' ']).length = 10001
    rw [List.length_append, List.length_replicate]
    rfl
  · unfold process_medical_text
    rw [show pyStrip ((⟨some C9long, true, true⟩ : ApiRequest).transcript.getD "") =
      String.mk (List.replicate 10000 'a') from pyStrip_C9long]
    rw [if_neg (by
      intro hcon
      have hl : (List.replicate 10000 'a' : List Char) = [] := congrArg String.toList hcon
      rw [show (List.replicate 10000 'a' : List Char) =
        'a' :: List.replicate 9999 'a' from rfl] at hl
      exact List.noConfusion hl)]
    rw [if_neg (by rw [hlen]; omega)]
    rfl
  · show (List.replicate 10000 ' ' : List Char).length = 10000
    rw [List.length_replicate]
  · unfold process_medical_text
    rw [show pyStrip ((⟨some C9spaces, true, true⟩ : ApiRequest).transcript.getD "") =
      "" from pyStrip_C9spaces]
    rfl

/-! ## Claim C10 -/

/-- C10 is right about the spec but the code violates it: `get_pipeline`
assigns the module-global `_pipeline` before checking that `load_model`
succeeded, so after a first request whose load failed — where
`get_pipeline` correctly returns `None` (503) — every subsequent
`health_check` finds the cached, never-loaded pipeline object and reports
healthy/ready, although the generator has not successfully loaded. -/
theorem C10_theorem :
    (get_pipeline false ⟨none⟩).1 = none ∧
    generatorLoaded (get_pipeline false ⟨none⟩).2 = false ∧
    (health_check true (get_pipeline false ⟨none⟩).2).1 = .healthy ∧
    (health_check false (get_pipeline false ⟨none⟩).2).1 = .healthy ∧
    generatorLoaded (health_check false (get_pipeline false ⟨none⟩).2).2 = false := by
  decide

end MedParser
